import Mathlib

/-!
Verification of the energy-model core of `ml-modelfinal.py`: the motor
efficiency interpolation table, the remaining-state-of-charge energy model
`calculate_remaining_soc`, and the speed optimizer `find_optimal_speed`.

Python floats are modelled as real numbers. A Python float division whose
divisor can be zero raises `ZeroDivisionError`; such a computation is
modelled as `Option ℝ`, with `none` standing for the raised exception.
-/

open Real

namespace MlModel

/-- Source constant `GRAVITATIONAL_CONSTANT = 9.81`. -/
def GRAVITATIONAL_CONSTANT : ℝ := 9.81

/-- Source constant `MASS = 300` (kg). -/
def MASS : ℝ := 300

/-- Source constant `FRONTAL_AREA = 1.1` (m^2). -/
def FRONTAL_AREA : ℝ := 1.1

/-- Source constant `DENSITY_AIR = 1.225` (kg/m^3). -/
def DENSITY_AIR : ℝ := 1.225

/-- Source constant `BASE_ROLLING_RESISTANCE = 0.015`. -/
def BASE_ROLLING_RESISTANCE : ℝ := 0.015

/-- Source constant `COEFF_DRAG = 0.2`. -/
def COEFF_DRAG : ℝ := 0.2

/-- Source constant `BATTERY_CAPACITY = 4960` (Wh). -/
def BATTERY_CAPACITY : ℝ := 4960

/-- Source constant `SOLAR_PANEL_EFFICIENCY = 0.18`. -/
def SOLAR_PANEL_EFFICIENCY : ℝ := 0.18

/-- `interpolate_efficiency` from the source: the loop over the sorted keys
`[10, 20, 30, 40, 50, 60]` of the fixed table
`{10: 0.44, 20: 0.64, 30: 0.74, 40: 0.81, 50: 0.85, 60: 0.90}` is unrolled.
The dictionary membership test (exact key match) comes first, then the five
bracketing tests `speeds[i] <= speed_kph < speeds[i+1]` in order, then the
fall-through `return motor_efficiencies[speeds[-1]]`. -/
noncomputable def interpolate_efficiency (speed_kph : ℝ) : ℝ :=
  if speed_kph = 10 then 0.44
  else if speed_kph = 20 then 0.64
  else if speed_kph = 30 then 0.74
  else if speed_kph = 40 then 0.81
  else if speed_kph = 50 then 0.85
  else if speed_kph = 60 then 0.90
  else if 10 ≤ speed_kph ∧ speed_kph < 20 then
    0.44 + (0.64 - 0.44) * ((speed_kph - 10) / (20 - 10))
  else if 20 ≤ speed_kph ∧ speed_kph < 30 then
    0.64 + (0.74 - 0.64) * ((speed_kph - 20) / (30 - 20))
  else if 30 ≤ speed_kph ∧ speed_kph < 40 then
    0.74 + (0.81 - 0.74) * ((speed_kph - 30) / (40 - 30))
  else if 40 ≤ speed_kph ∧ speed_kph < 50 then
    0.81 + (0.85 - 0.81) * ((speed_kph - 40) / (50 - 40))
  else if 50 ≤ speed_kph ∧ speed_kph < 60 then
    0.85 + (0.90 - 0.85) * ((speed_kph - 50) / (60 - 50))
  else 0.90

/-- `calculate_rolling_resistance_coeff` from the source. -/
def calculate_rolling_resistance_coeff (temperature : ℝ) : ℝ :=
  BASE_ROLLING_RESISTANCE * (1 + 0.01 * (temperature - 25))

/-- `calculate_remaining_soc` from the source. `math.radians(d)` is
`d * (π / 180)`. The final division `remaining_wh / battery_capacity_wh`
raises `ZeroDivisionError` in Python when `battery_capacity_wh = 0`; that
outcome is `none`. Every other path returns `some` of the computed value. -/
noncomputable def calculate_remaining_soc (speed_kph gradient_deg temperature
    wind_speed_mps ghi10 ghi90 battery_efficiency current_soc : ℝ) : Option ℝ :=
  let speed_mps := speed_kph * 0.27778
  if speed_mps ≤ 0 then some 0
  else
    let distance_m : ℝ := 150000
    let time_s := distance_m / speed_mps
    let rolling_resistance :=
      calculate_rolling_resistance_coeff temperature * GRAVITATIONAL_CONSTANT * MASS
    let drag_force :=
      0.5 * COEFF_DRAG * FRONTAL_AREA * DENSITY_AIR * (speed_mps + wind_speed_mps) ^ 2
    let gradient_force :=
      MASS * GRAVITATIONAL_CONSTANT * Real.sin (gradient_deg * (Real.pi / 180))
    let resistive_force := rolling_resistance + gradient_force + drag_force
    let motor_efficiency := interpolate_efficiency speed_kph
    if motor_efficiency = 0 then some 0
    else
      let motor_power_watt := speed_mps * resistive_force / (motor_efficiency * 0.97)
      let irradiance := (ghi10 + ghi90) / 2
      let solar_power0 := max 0 (irradiance * 3.51 * SOLAR_PANEL_EFFICIENCY)
      let solar_power := solar_power0 * (1 - 0.004 * max 0 |temperature - 25|)
      let battery_capacity_wh := BATTERY_CAPACITY * battery_efficiency
      if battery_capacity_wh = 0 then none
      else
        let energy_used_wh := motor_power_watt * (time_s / 3600)
        let energy_generated_wh := solar_power * (time_s / 3600)
        let remaining_wh :=
          current_soc * battery_capacity_wh - energy_used_wh + energy_generated_wh
        let remaining_soc := remaining_wh / battery_capacity_wh * 100
        some (max 0 (min remaining_soc 100))

/-- The value returned on the main path of `calculate_remaining_soc`
(positive speed, nonzero efficiency, nonzero capacity), written out with
every local substituted. -/
noncomputable def remaining_soc_value (speed_kph gradient_deg temperature
    wind_speed_mps ghi10 ghi90 battery_efficiency current_soc : ℝ) : ℝ :=
  max 0 (min
    ((current_soc * (BATTERY_CAPACITY * battery_efficiency) -
        speed_kph * 0.27778 *
            (calculate_rolling_resistance_coeff temperature *
                GRAVITATIONAL_CONSTANT * MASS +
              MASS * GRAVITATIONAL_CONSTANT *
                Real.sin (gradient_deg * (Real.pi / 180)) +
              0.5 * COEFF_DRAG * FRONTAL_AREA * DENSITY_AIR *
                (speed_kph * 0.27778 + wind_speed_mps) ^ 2) /
            (interpolate_efficiency speed_kph * 0.97) *
          (150000 / (speed_kph * 0.27778) / 3600) +
        max 0 ((ghi10 + ghi90) / 2 * 3.51 * SOLAR_PANEL_EFFICIENCY) *
            (1 - 0.004 * max 0 |temperature - 25|) *
          (150000 / (speed_kph * 0.27778) / 3600)) /
        (BATTERY_CAPACITY * battery_efficiency) * 100)
    100)

/-- The reference formula of the specification for the Energy Model,
transcribed from the spec text: trip time `t = 150000 / speed_mps`,
resistive force as the sum of rolling, drag and gradient terms, motor
electrical power `speed_mps * resistive_force / (motor_efficiency * 0.97)`,
derated solar power, usable capacity `4960 * battery_efficiency`, and
remaining SOC `((current_soc * capacity - motor_power * t / 3600 +
solar_power * t / 3600) / capacity) * 100` clamped to `[0, 100]`. Where the
capacity divisor is zero the formula is undefined, which is `none`. -/
noncomputable def reference_remaining_soc (speed_kph gradient_deg temperature
    wind_speed_mps ghi10 ghi90 battery_efficiency current_soc : ℝ) : Option ℝ :=
  let speed_mps := speed_kph * 0.27778
  let t := 150000 / speed_mps
  let resistive_force :=
    0.015 * (1 + 0.01 * (temperature - 25)) * 9.81 * 300 +
      0.5 * 0.2 * 1.1 * 1.225 * (speed_mps + wind_speed_mps) ^ 2 +
      300 * 9.81 * Real.sin (gradient_deg * (Real.pi / 180))
  let motor_power :=
    speed_mps * resistive_force / (interpolate_efficiency speed_kph * 0.97)
  let solar_power :=
    max 0 ((ghi10 + ghi90) / 2 * 3.51 * 0.18) *
      (1 - 0.004 * max 0 |temperature - 25|)
  let capacity := 4960 * battery_efficiency
  if capacity = 0 then none
  else
    some (max 0 (min
      ((current_soc * capacity - motor_power * t / 3600 + solar_power * t / 3600) /
          capacity * 100)
      100))

/-- The result record of a bounded scalar minimization: the located point
`x` and the objective value `fval` at that point. -/
structure ScalarResult where
  x : ℝ
  fval : ℝ

/-- `find_optimal_speed` from the source. The call to the external library
minimizer (`minimize_scalar` with `bounds=(10, 60)` and the bounded method)
is library code outside this repository, so the minimizer is passed in as a
parameter; the theorems assume only its documented contract, namely that
the returned point lies within the bounds and that `fval` is the objective
evaluated at the returned point. The objective negates the remaining SOC;
`Option.getD 0` extracts the float the Python objective returns, and is
never exercised on `none` when `battery_efficiency` is nonzero. -/
noncomputable def find_optimal_speed
    (minimize_scalar : (ℝ → ℝ) → ℝ → ℝ → ScalarResult)
    (gradient_deg temperature wind_speed_mps ghi10 ghi90
      battery_efficiency current_soc : ℝ) : ℝ × ℝ :=
  let objective := fun speed_kph =>
    -((calculate_remaining_soc speed_kph gradient_deg temperature
        wind_speed_mps ghi10 ghi90 battery_efficiency current_soc).getD 0)
  let result := minimize_scalar objective 10 60
  (result.x, -result.fval)

/-- Below the smallest table key the bracket loop finds no pair and the
function falls through to the largest key value. -/
lemma interp_below (s : ℝ) (h : s < 10) : interpolate_efficiency s = 0.9 := by
  have e1 : ¬(s = 10) := by rintro rfl; norm_num at h
  have e2 : ¬(s = 20) := by rintro rfl; norm_num at h
  have e3 : ¬(s = 30) := by rintro rfl; norm_num at h
  have e4 : ¬(s = 40) := by rintro rfl; norm_num at h
  have e5 : ¬(s = 50) := by rintro rfl; norm_num at h
  have e6 : ¬(s = 60) := by rintro rfl; norm_num at h
  have b1 : ¬(10 ≤ s ∧ s < 20) := by rintro ⟨h1, h2⟩; linarith
  have b2 : ¬(20 ≤ s ∧ s < 30) := by rintro ⟨h1, h2⟩; linarith
  have b3 : ¬(30 ≤ s ∧ s < 40) := by rintro ⟨h1, h2⟩; linarith
  have b4 : ¬(40 ≤ s ∧ s < 50) := by rintro ⟨h1, h2⟩; linarith
  have b5 : ¬(50 ≤ s ∧ s < 60) := by rintro ⟨h1, h2⟩; linarith
  unfold interpolate_efficiency
  rw [if_neg e1, if_neg e2, if_neg e3, if_neg e4, if_neg e5, if_neg e6,
    if_neg b1, if_neg b2, if_neg b3, if_neg b4, if_neg b5]
  norm_num

/-- On `[10, 20)` the function is the first bracket interpolation. -/
lemma interp_10_20 (s : ℝ) (hl : 10 ≤ s) (hr : s < 20) :
    interpolate_efficiency s = 0.44 + 0.02 * (s - 10) := by
  by_cases e1 : s = 10
  · subst e1; unfold interpolate_efficiency; rw [if_pos rfl]; norm_num
  · have e2 : ¬(s = 20) := by rintro rfl; norm_num at hr
    have e3 : ¬(s = 30) := by rintro rfl; norm_num at hr
    have e4 : ¬(s = 40) := by rintro rfl; norm_num at hr
    have e5 : ¬(s = 50) := by rintro rfl; norm_num at hr
    have e6 : ¬(s = 60) := by rintro rfl; norm_num at hr
    unfold interpolate_efficiency
    rw [if_neg e1, if_neg e2, if_neg e3, if_neg e4, if_neg e5, if_neg e6,
      if_pos ⟨hl, hr⟩]
    ring

/-- On `[20, 30)` the function is the second bracket interpolation. -/
lemma interp_20_30 (s : ℝ) (hl : 20 ≤ s) (hr : s < 30) :
    interpolate_efficiency s = 0.64 + 0.01 * (s - 20) := by
  have e1 : ¬(s = 10) := by rintro rfl; norm_num at hl
  by_cases e2 : s = 20
  · subst e2; unfold interpolate_efficiency
    rw [if_neg e1, if_pos rfl]; norm_num
  · have e3 : ¬(s = 30) := by rintro rfl; norm_num at hr
    have e4 : ¬(s = 40) := by rintro rfl; norm_num at hr
    have e5 : ¬(s = 50) := by rintro rfl; norm_num at hr
    have e6 : ¬(s = 60) := by rintro rfl; norm_num at hr
    have b1 : ¬(10 ≤ s ∧ s < 20) := by rintro ⟨h1, h2⟩; linarith
    unfold interpolate_efficiency
    rw [if_neg e1, if_neg e2, if_neg e3, if_neg e4, if_neg e5, if_neg e6,
      if_neg b1, if_pos ⟨hl, hr⟩]
    ring

/-- On `[30, 40)` the function is the third bracket interpolation. -/
lemma interp_30_40 (s : ℝ) (hl : 30 ≤ s) (hr : s < 40) :
    interpolate_efficiency s = 0.74 + 0.007 * (s - 30) := by
  have e1 : ¬(s = 10) := by rintro rfl; norm_num at hl
  have e2 : ¬(s = 20) := by rintro rfl; norm_num at hl
  by_cases e3 : s = 30
  · subst e3; unfold interpolate_efficiency
    rw [if_neg e1, if_neg e2, if_pos rfl]; norm_num
  · have e4 : ¬(s = 40) := by rintro rfl; norm_num at hr
    have e5 : ¬(s = 50) := by rintro rfl; norm_num at hr
    have e6 : ¬(s = 60) := by rintro rfl; norm_num at hr
    have b1 : ¬(10 ≤ s ∧ s < 20) := by rintro ⟨h1, h2⟩; linarith
    have b2 : ¬(20 ≤ s ∧ s < 30) := by rintro ⟨h1, h2⟩; linarith
    unfold interpolate_efficiency
    rw [if_neg e1, if_neg e2, if_neg e3, if_neg e4, if_neg e5, if_neg e6,
      if_neg b1, if_neg b2, if_pos ⟨hl, hr⟩]
    ring

/-- On `[40, 50)` the function is the fourth bracket interpolation. -/
lemma interp_40_50 (s : ℝ) (hl : 40 ≤ s) (hr : s < 50) :
    interpolate_efficiency s = 0.81 + 0.004 * (s - 40) := by
  have e1 : ¬(s = 10) := by rintro rfl; norm_num at hl
  have e2 : ¬(s = 20) := by rintro rfl; norm_num at hl
  have e3 : ¬(s = 30) := by rintro rfl; norm_num at hl
  by_cases e4 : s = 40
  · subst e4; unfold interpolate_efficiency
    rw [if_neg e1, if_neg e2, if_neg e3, if_pos rfl]; norm_num
  · have e5 : ¬(s = 50) := by rintro rfl; norm_num at hr
    have e6 : ¬(s = 60) := by rintro rfl; norm_num at hr
    have b1 : ¬(10 ≤ s ∧ s < 20) := by rintro ⟨h1, h2⟩; linarith
    have b2 : ¬(20 ≤ s ∧ s < 30) := by rintro ⟨h1, h2⟩; linarith
    have b3 : ¬(30 ≤ s ∧ s < 40) := by rintro ⟨h1, h2⟩; linarith
    unfold interpolate_efficiency
    rw [if_neg e1, if_neg e2, if_neg e3, if_neg e4, if_neg e5, if_neg e6,
      if_neg b1, if_neg b2, if_neg b3, if_pos ⟨hl, hr⟩]
    ring

/-- On `[50, 60)` the function is the fifth bracket interpolation. -/
lemma interp_50_60 (s : ℝ) (hl : 50 ≤ s) (hr : s < 60) :
    interpolate_efficiency s = 0.85 + 0.005 * (s - 50) := by
  have e1 : ¬(s = 10) := by rintro rfl; norm_num at hl
  have e2 : ¬(s = 20) := by rintro rfl; norm_num at hl
  have e3 : ¬(s = 30) := by rintro rfl; norm_num at hl
  have e4 : ¬(s = 40) := by rintro rfl; norm_num at hl
  by_cases e5 : s = 50
  · subst e5; unfold interpolate_efficiency
    rw [if_neg e1, if_neg e2, if_neg e3, if_neg e4, if_pos rfl]; norm_num
  · have e6 : ¬(s = 60) := by rintro rfl; norm_num at hr
    have b1 : ¬(10 ≤ s ∧ s < 20) := by rintro ⟨h1, h2⟩; linarith
    have b2 : ¬(20 ≤ s ∧ s < 30) := by rintro ⟨h1, h2⟩; linarith
    have b3 : ¬(30 ≤ s ∧ s < 40) := by rintro ⟨h1, h2⟩; linarith
    have b4 : ¬(40 ≤ s ∧ s < 50) := by rintro ⟨h1, h2⟩; linarith
    unfold interpolate_efficiency
    rw [if_neg e1, if_neg e2, if_neg e3, if_neg e4, if_neg e5, if_neg e6,
      if_neg b1, if_neg b2, if_neg b3, if_neg b4, if_pos ⟨hl, hr⟩]
    ring

/-- At or above the largest key the function returns the largest key value,
whether by the exact-match test at 60 or by the fall-through. -/
lemma interp_above (s : ℝ) (h : 60 ≤ s) : interpolate_efficiency s = 0.9 := by
  have e1 : ¬(s = 10) := by rintro rfl; norm_num at h
  have e2 : ¬(s = 20) := by rintro rfl; norm_num at h
  have e3 : ¬(s = 30) := by rintro rfl; norm_num at h
  have e4 : ¬(s = 40) := by rintro rfl; norm_num at h
  have e5 : ¬(s = 50) := by rintro rfl; norm_num at h
  by_cases e6 : s = 60
  · subst e6; unfold interpolate_efficiency
    rw [if_neg e1, if_neg e2, if_neg e3, if_neg e4, if_neg e5, if_pos rfl]
    norm_num
  · have b1 : ¬(10 ≤ s ∧ s < 20) := by rintro ⟨h1, h2⟩; linarith
    have b2 : ¬(20 ≤ s ∧ s < 30) := by rintro ⟨h1, h2⟩; linarith
    have b3 : ¬(30 ≤ s ∧ s < 40) := by rintro ⟨h1, h2⟩; linarith
    have b4 : ¬(40 ≤ s ∧ s < 50) := by rintro ⟨h1, h2⟩; linarith
    have b5 : ¬(50 ≤ s ∧ s < 60) := by rintro ⟨h1, h2⟩; linarith
    unfold interpolate_efficiency
    rw [if_neg e1, if_neg e2, if_neg e3, if_neg e4, if_neg e5, if_neg e6,
      if_neg b1, if_neg b2, if_neg b3, if_neg b4, if_neg b5]
    norm_num

/-- The interpolated efficiency always lies in `[0.44, 0.9]`. -/
lemma interp_bounds (s : ℝ) :
    0.44 ≤ interpolate_efficiency s ∧ interpolate_efficiency s ≤ 0.9 := by
  rcases lt_or_le s 10 with h | h10
  · rw [interp_below s h]; norm_num
  rcases lt_or_le s 20 with h | h20
  · rw [interp_10_20 s h10 h]; constructor <;> linarith
  rcases lt_or_le s 30 with h | h30
  · rw [interp_20_30 s h20 h]; constructor <;> linarith
  rcases lt_or_le s 40 with h | h40
  · rw [interp_30_40 s h30 h]; constructor <;> linarith
  rcases lt_or_le s 50 with h | h50
  · rw [interp_40_50 s h40 h]; constructor <;> linarith
  rcases lt_or_le s 60 with h | h60
  · rw [interp_50_60 s h50 h]; constructor <;> linarith
  · rw [interp_above s h60]; norm_num

/-- The interpolated efficiency is never zero. -/
lemma interp_ne_zero (s : ℝ) : interpolate_efficiency s ≠ 0 := by
  have h := (interp_bounds s).1
  intro hc; rw [hc] at h; norm_num at h

/-- Non-positive speed takes the early return: the result is `some 0` and no
force, power, or energy term is evaluated (in particular the division by the
battery capacity is not reached, so nothing can raise). -/
lemma soc_of_nonpos (speed_kph gradient_deg temperature wind_speed_mps
    ghi10 ghi90 battery_efficiency current_soc : ℝ) (h : speed_kph ≤ 0) :
    calculate_remaining_soc speed_kph gradient_deg temperature wind_speed_mps
      ghi10 ghi90 battery_efficiency current_soc = some 0 := by
  have hmps : speed_kph * 0.27778 ≤ 0 := by nlinarith
  unfold calculate_remaining_soc
  rw [if_pos hmps]

/-- Positive speed and nonzero battery efficiency take the main path. -/
lemma soc_of_pos (speed_kph gradient_deg temperature wind_speed_mps
    ghi10 ghi90 battery_efficiency current_soc : ℝ) (h : 0 < speed_kph)
    (hbe : battery_efficiency ≠ 0) :
    calculate_remaining_soc speed_kph gradient_deg temperature wind_speed_mps
      ghi10 ghi90 battery_efficiency current_soc =
      some (remaining_soc_value speed_kph gradient_deg temperature
        wind_speed_mps ghi10 ghi90 battery_efficiency current_soc) := by
  have hmps : ¬(speed_kph * 0.27778 ≤ 0) := by push_neg; nlinarith
  have hcap : ¬(BATTERY_CAPACITY * battery_efficiency = 0) := by
    unfold BATTERY_CAPACITY
    exact mul_ne_zero (by norm_num) hbe
  unfold calculate_remaining_soc remaining_soc_value
  rw [if_neg hmps, if_neg (interp_ne_zero speed_kph), if_neg hcap]

/-- Positive speed and zero battery efficiency reach the final division with
a zero divisor: the Python code raises `ZeroDivisionError`. -/
lemma soc_of_zero_capacity (speed_kph gradient_deg temperature wind_speed_mps
    ghi10 ghi90 current_soc : ℝ) (h : 0 < speed_kph) :
    calculate_remaining_soc speed_kph gradient_deg temperature wind_speed_mps
      ghi10 ghi90 0 current_soc = none := by
  have hmps : ¬(speed_kph * 0.27778 ≤ 0) := by push_neg; nlinarith
  have hcap : BATTERY_CAPACITY * (0 : ℝ) = 0 := mul_zero _
  unfold calculate_remaining_soc
  rw [if_neg hmps, if_neg (interp_ne_zero speed_kph), if_pos hcap]

/-- The clamp `max 0 (min x 100)` is at least 0. -/
lemma clamp_nonneg (x : ℝ) : 0 ≤ max 0 (min x 100) := le_max_left 0 _

/-- The clamp `max 0 (min x 100)` is at most 100. -/
lemma clamp_le_100 (x : ℝ) : max 0 (min x 100) ≤ 100 :=
  max_le (by norm_num) (min_le_right _ _)

/-- The clamp `max 0 (min x 100)` is monotone. -/
lemma clamp_mono {x y : ℝ} (h : x ≤ y) :
    max 0 (min x 100) ≤ max 0 (min y 100) :=
  max_le_max le_rfl (min_le_min h le_rfl)

/-- The clamp is strictly monotone away from saturation: if the lower value
clamps below 100 and the upper value clamps above 0 then a strict inequality
of raw values survives the clamp. -/
lemma clamp_strict {x y : ℝ} (hxy : x < y) (hx : max 0 (min x 100) < 100)
    (hy : 0 < max 0 (min y 100)) :
    max 0 (min x 100) < max 0 (min y 100) := by
  rcases le_or_lt y 0 with hy0 | hy0
  · exfalso
    have : min y 100 ≤ 0 := le_trans (min_le_left _ _) hy0
    rw [max_eq_left this] at hy
    exact lt_irrefl 0 hy
  · rcases le_or_lt 100 x with hx100 | hx100
    · exfalso
      have : (100 : ℝ) ≤ min x 100 := le_min hx100 le_rfl
      have : (100 : ℝ) ≤ max 0 (min x 100) := le_trans this (le_max_right _ _)
      linarith
    · have hxlt : max 0 (min x 100) < min y 100 := by
        rcases le_or_lt x 0 with hx0 | hx0
        · have h1 : min x 100 ≤ 0 := le_trans (min_le_left _ _) hx0
          rw [max_eq_left h1]
          exact lt_min hy0 (by norm_num)
        · have h1 : 0 ≤ min x 100 := le_min (le_of_lt hx0) (by norm_num)
          rw [max_eq_right h1] at hx ⊢
          exact lt_min (lt_of_le_of_lt (min_le_left _ _) hxy) hx
      exact lt_of_lt_of_le hxlt (le_max_right _ _)

/-- Lower bound 0.64 from 20 on. -/
lemma interp_lb20 (s : ℝ) (h : 20 ≤ s) : 0.64 ≤ interpolate_efficiency s := by
  rcases lt_or_le s 30 with h3 | h3
  · rw [interp_20_30 s h h3]; linarith
  rcases lt_or_le s 40 with h4 | h4
  · rw [interp_30_40 s h3 h4]; linarith
  rcases lt_or_le s 50 with h5 | h5
  · rw [interp_40_50 s h4 h5]; linarith
  rcases lt_or_le s 60 with h6 | h6
  · rw [interp_50_60 s h5 h6]; linarith
  · rw [interp_above s h6]; norm_num

/-- Lower bound 0.74 from 30 on. -/
lemma interp_lb30 (s : ℝ) (h : 30 ≤ s) : 0.74 ≤ interpolate_efficiency s := by
  rcases lt_or_le s 40 with h4 | h4
  · rw [interp_30_40 s h h4]; linarith
  rcases lt_or_le s 50 with h5 | h5
  · rw [interp_40_50 s h4 h5]; linarith
  rcases lt_or_le s 60 with h6 | h6
  · rw [interp_50_60 s h5 h6]; linarith
  · rw [interp_above s h6]; norm_num

/-- Lower bound 0.81 from 40 on. -/
lemma interp_lb40 (s : ℝ) (h : 40 ≤ s) : 0.81 ≤ interpolate_efficiency s := by
  rcases lt_or_le s 50 with h5 | h5
  · rw [interp_40_50 s h h5]; linarith
  rcases lt_or_le s 60 with h6 | h6
  · rw [interp_50_60 s h5 h6]; linarith
  · rw [interp_above s h6]; norm_num

/-- Lower bound 0.85 from 50 on. -/
lemma interp_lb50 (s : ℝ) (h : 50 ≤ s) : 0.85 ≤ interpolate_efficiency s := by
  rcases lt_or_le s 60 with h6 | h6
  · rw [interp_50_60 s h h6]; linarith
  · rw [interp_above s h6]; norm_num

/-- For nonzero battery efficiency the function always returns a value, and
that value is already in the clamp range. -/
lemma soc_exists (speed_kph gradient_deg temperature wind_speed_mps
    ghi10 ghi90 battery_efficiency current_soc : ℝ)
    (hbe : battery_efficiency ≠ 0) :
    ∃ r : ℝ, calculate_remaining_soc speed_kph gradient_deg temperature
        wind_speed_mps ghi10 ghi90 battery_efficiency current_soc = some r ∧
      0 ≤ r ∧ r ≤ 100 := by
  rcases le_or_lt speed_kph 0 with h | h
  · exact ⟨0, soc_of_nonpos _ _ _ _ _ _ _ _ h, le_refl 0, by norm_num⟩
  · refine ⟨_, soc_of_pos _ _ _ _ _ _ _ _ h hbe, ?_, ?_⟩
    · unfold remaining_soc_value; exact clamp_nonneg _
    · unfold remaining_soc_value; exact clamp_le_100 _

/-- Table value at key 10. -/
lemma interp_at_10 : interpolate_efficiency 10 = 0.44 := by
  rw [interp_10_20 10 le_rfl (by norm_num)]; norm_num

/-- Table value at key 20. -/
lemma interp_at_20 : interpolate_efficiency 20 = 0.64 := by
  rw [interp_20_30 20 le_rfl (by norm_num)]; norm_num

/-- Table value at key 30. -/
lemma interp_at_30 : interpolate_efficiency 30 = 0.74 := by
  rw [interp_30_40 30 le_rfl (by norm_num)]; norm_num

/-- Table value at key 40. -/
lemma interp_at_40 : interpolate_efficiency 40 = 0.81 := by
  rw [interp_40_50 40 le_rfl (by norm_num)]; norm_num

/-- Table value at key 50. -/
lemma interp_at_50 : interpolate_efficiency 50 = 0.85 := by
  rw [interp_50_60 50 le_rfl (by norm_num)]; norm_num

/-- Table value at key 60. -/
lemma interp_at_60 : interpolate_efficiency 60 = 0.90 := by
  rw [interp_above 60 le_rfl]; norm_num

/-- C4: for every `speed_kph ≤ 0` and all values of the other arguments,
`calculate_remaining_soc` returns 0 immediately; in the model the early
return yields `some 0` for every other argument, in particular no force,
power, or energy term (and no division) can influence the result. -/
theorem remaining_soc_zero_of_nonpos_speed (speed_kph gradient_deg
    temperature wind_speed_mps ghi10 ghi90 battery_efficiency
    current_soc : ℝ) (h : speed_kph ≤ 0) :
    calculate_remaining_soc speed_kph gradient_deg temperature wind_speed_mps
      ghi10 ghi90 battery_efficiency current_soc = some 0 :=
  soc_of_nonpos _ _ _ _ _ _ _ _ h

/-- Witness for C4 at speed 0 with arbitrary other arguments. -/
theorem remaining_soc_zero_of_nonpos_speed_witness :
    (0 : ℝ) ≤ 0 ∧
      calculate_remaining_soc 0 5 30 2 100 200 0.9 0.5 = some 0 :=
  ⟨le_refl 0, remaining_soc_zero_of_nonpos_speed 0 5 30 2 100 200 0.9 0.5
    (le_refl 0)⟩

/-- C9: the zero-motor-efficiency guard is unreachable: for every speed the
interpolated efficiency lies in `[0.44, 0.9]`, hence is nonzero, and the
divisor `motor_efficiency * 0.97` of the guarded division is nonzero. -/
theorem motor_efficiency_guard_unreachable (s : ℝ) :
    0.44 ≤ interpolate_efficiency s ∧ interpolate_efficiency s ≤ 0.9 ∧
      interpolate_efficiency s ≠ 0 ∧
      interpolate_efficiency s * 0.97 ≠ 0 :=
  ⟨(interp_bounds s).1, (interp_bounds s).2, interp_ne_zero s,
    mul_ne_zero (interp_ne_zero s) (by norm_num)⟩

/-- C10: `calculate_remaining_soc` is symmetric in its two irradiance
arguments, which enter only through their mean. -/
theorem remaining_soc_symmetric_in_irradiance (speed_kph gradient_deg
    temperature wind_speed_mps a b battery_efficiency current_soc : ℝ) :
    calculate_remaining_soc speed_kph gradient_deg temperature wind_speed_mps
        a b battery_efficiency current_soc =
      calculate_remaining_soc speed_kph gradient_deg temperature
        wind_speed_mps b a battery_efficiency current_soc := by
  unfold calculate_remaining_soc
  rw [add_comm a b]

/-- C3 (as stated, refuted): at speed 30 with `battery_efficiency = 0` the
final division divides by a zero capacity, so the code raises rather than
returning a value in `[0, 100]`. -/
theorem remaining_soc_range_counterexample :
    ¬ ∃ r : ℝ, calculate_remaining_soc 30 0 25 0 0 0 0 (1 / 2) = some r ∧
      0 ≤ r ∧ r ≤ 100 := by
  rintro ⟨r, hr, -, -⟩
  rw [soc_of_zero_capacity 30 0 25 0 0 0 (1 / 2) (by norm_num)] at hr
  exact Option.noConfusion hr

/-- C3 (amended): for every finite inputs with nonzero battery efficiency
the function returns a value, and that value lies in `[0, 100]`. -/
theorem remaining_soc_in_clamp_range (speed_kph gradient_deg temperature
    wind_speed_mps ghi10 ghi90 battery_efficiency current_soc : ℝ)
    (hbe : battery_efficiency ≠ 0) :
    ∃ r : ℝ, calculate_remaining_soc speed_kph gradient_deg temperature
        wind_speed_mps ghi10 ghi90 battery_efficiency current_soc = some r ∧
      0 ≤ r ∧ r ≤ 100 :=
  soc_exists _ _ _ _ _ _ _ _ hbe

/-- Witness for the amended C3 at a concrete input. -/
theorem remaining_soc_in_clamp_range_witness :
    (0.9 : ℝ) ≠ 0 ∧
      ∃ r : ℝ, calculate_remaining_soc 30 0 25 0 0 0 0.9 0.5 = some r ∧
        0 ≤ r ∧ r ≤ 100 :=
  ⟨by norm_num, remaining_soc_in_clamp_range 30 0 25 0 0 0 0.9 0.5
    (by norm_num)⟩

/-- C5: `interpolate_efficiency` implements the reference definition over
the fixed table: exact key matches return the table value, a bracketing
pair of consecutive keys gives the linear interpolation of the spec, and
any speed below the smallest key or at or above the largest key returns the
largest key value 0.90. -/
theorem interpolate_efficiency_matches_reference (s : ℝ) :
    (interpolate_efficiency 10 = 0.44 ∧ interpolate_efficiency 20 = 0.64 ∧
      interpolate_efficiency 30 = 0.74 ∧ interpolate_efficiency 40 = 0.81 ∧
      interpolate_efficiency 50 = 0.85 ∧ interpolate_efficiency 60 = 0.90) ∧
    (10 ≤ s → s < 20 →
      interpolate_efficiency s = 0.44 + (0.64 - 0.44) * ((s - 10) / (20 - 10))) ∧
    (20 ≤ s → s < 30 →
      interpolate_efficiency s = 0.64 + (0.74 - 0.64) * ((s - 20) / (30 - 20))) ∧
    (30 ≤ s → s < 40 →
      interpolate_efficiency s = 0.74 + (0.81 - 0.74) * ((s - 30) / (40 - 30))) ∧
    (40 ≤ s → s < 50 →
      interpolate_efficiency s = 0.81 + (0.85 - 0.81) * ((s - 40) / (50 - 40))) ∧
    (50 ≤ s → s < 60 →
      interpolate_efficiency s = 0.85 + (0.90 - 0.85) * ((s - 50) / (60 - 50))) ∧
    ((s < 10 ∨ 60 ≤ s) → interpolate_efficiency s = 0.90) := by
  refine ⟨⟨interp_at_10, interp_at_20, interp_at_30, interp_at_40,
    interp_at_50, interp_at_60⟩, ?_, ?_, ?_, ?_, ?_, ?_⟩
  · intro h1 h2; rw [interp_10_20 s h1 h2]; ring
  · intro h1 h2; rw [interp_20_30 s h1 h2]; ring
  · intro h1 h2; rw [interp_30_40 s h1 h2]; ring
  · intro h1 h2; rw [interp_40_50 s h1 h2]; ring
  · intro h1 h2; rw [interp_50_60 s h1 h2]; ring
  · rintro (h | h)
    · rw [interp_below s h]; norm_num
    · rw [interp_above s h]; norm_num

/-- Witness for C5: the bracketing case at speed 15 and the fall-through
case, both discharged at concrete speeds. -/
theorem interpolate_efficiency_matches_reference_witness :
    (10 : ℝ) ≤ 15 ∧ (15 : ℝ) < 20 ∧
      interpolate_efficiency 15 = 0.44 + (0.64 - 0.44) * ((15 - 10) / (20 - 10)) :=
  ⟨by norm_num, by norm_num,
    (interpolate_efficiency_matches_reference 15).2.1 (by norm_num) (by norm_num)⟩

/-- C6: on the key range `[10, 60]` the interpolated efficiency is
monotonically non-decreasing, and it equals the table values at the keys. -/
theorem interpolate_efficiency_monotone (a b : ℝ) (h10 : 10 ≤ a)
    (hab : a ≤ b) (h60 : b ≤ 60) :
    interpolate_efficiency a ≤ interpolate_efficiency b ∧
      interpolate_efficiency 10 = 0.44 ∧ interpolate_efficiency 20 = 0.64 ∧
      interpolate_efficiency 30 = 0.74 ∧ interpolate_efficiency 40 = 0.81 ∧
      interpolate_efficiency 50 = 0.85 ∧ interpolate_efficiency 60 = 0.90 := by
  refine ⟨?_, interp_at_10, interp_at_20, interp_at_30, interp_at_40,
    interp_at_50, interp_at_60⟩
  rcases lt_or_le a 20 with ha | ha
  · rw [interp_10_20 a h10 ha]
    rcases lt_or_le b 20 with hb | hb
    · rw [interp_10_20 b (by linarith) hb]; linarith
    · have hlb := interp_lb20 b hb; linarith
  rcases lt_or_le a 30 with ha3 | ha3
  · rw [interp_20_30 a ha ha3]
    rcases lt_or_le b 30 with hb | hb
    · rw [interp_20_30 b (by linarith) hb]; linarith
    · have hlb := interp_lb30 b hb; linarith
  rcases lt_or_le a 40 with ha4 | ha4
  · rw [interp_30_40 a ha3 ha4]
    rcases lt_or_le b 40 with hb | hb
    · rw [interp_30_40 b (by linarith) hb]; linarith
    · have hlb := interp_lb40 b hb; linarith
  rcases lt_or_le a 50 with ha5 | ha5
  · rw [interp_40_50 a ha4 ha5]
    rcases lt_or_le b 50 with hb | hb
    · rw [interp_40_50 b (by linarith) hb]; linarith
    · have hlb := interp_lb50 b hb; linarith
  rcases lt_or_le a 60 with ha6 | ha6
  · rw [interp_50_60 a ha5 ha6]
    rcases lt_or_le b 60 with hb | hb
    · rw [interp_50_60 b (by linarith) hb]; linarith
    · rw [interp_above b hb]; linarith
  · rw [interp_above a ha6, interp_above b (by linarith)]

/-- Witness for C6 at the concrete pair 15 ≤ 55. -/
theorem interpolate_efficiency_monotone_witness :
    (10 : ℝ) ≤ 15 ∧ (15 : ℝ) ≤ 55 ∧ (55 : ℝ) ≤ 60 ∧
      interpolate_efficiency 15 ≤ interpolate_efficiency 55 :=
  ⟨by norm_num, by norm_num, by norm_num,
    (interpolate_efficiency_monotone 15 55 (by norm_num) (by norm_num)
      (by norm_num)).1⟩

/-- C1: for every positive speed and all finite inputs, the code computes
exactly the reference formula of the spec (and where that formula divides
by a zero capacity both sides are undefined). -/
theorem remaining_soc_matches_formula (speed_kph gradient_deg temperature
    wind_speed_mps ghi10 ghi90 battery_efficiency current_soc : ℝ)
    (hs : 0 < speed_kph) :
    calculate_remaining_soc speed_kph gradient_deg temperature wind_speed_mps
        ghi10 ghi90 battery_efficiency current_soc =
      reference_remaining_soc speed_kph gradient_deg temperature
        wind_speed_mps ghi10 ghi90 battery_efficiency current_soc := by
  by_cases hbe : battery_efficiency = 0
  · subst hbe
    rw [soc_of_zero_capacity _ _ _ _ _ _ _ hs]
    simp [reference_remaining_soc]
  · rw [soc_of_pos _ _ _ _ _ _ _ _ hs hbe]
    have hcap : ¬(4960 * battery_efficiency = 0) :=
      mul_ne_zero (by norm_num) hbe
    simp only [reference_remaining_soc]
    rw [if_neg hcap]
    refine congrArg some ?_
    unfold remaining_soc_value BATTERY_CAPACITY GRAVITATIONAL_CONSTANT MASS
      FRONTAL_AREA DENSITY_AIR COEFF_DRAG SOLAR_PANEL_EFFICIENCY
      calculate_rolling_resistance_coeff BASE_ROLLING_RESISTANCE
    refine congrArg (fun x => max 0 (min x 100)) ?_
    ring

/-- Witness for C1 at a concrete positive speed. -/
theorem remaining_soc_matches_formula_witness :
    (0 : ℝ) < 30 ∧
      calculate_remaining_soc 30 3 20 1 500 600 0.9 0.8 =
        reference_remaining_soc 30 3 20 1 500 600 0.9 0.8 :=
  ⟨by norm_num, remaining_soc_matches_formula 30 3 20 1 500 600 0.9 0.8
    (by norm_num)⟩

/-- C7: for positive speed, nonnegative winds `w1 ≤ w2` and a valid
(positive) battery efficiency, a larger wind never gives a larger remaining
SOC. -/
theorem remaining_soc_antitone_in_wind (speed_kph gradient_deg temperature
    w1 w2 ghi10 ghi90 battery_efficiency current_soc : ℝ)
    (hs : 0 < speed_kph) (hw1 : 0 ≤ w1) (hw : w1 ≤ w2)
    (hbe : 0 < battery_efficiency) :
    ∃ r1 r2 : ℝ,
      calculate_remaining_soc speed_kph gradient_deg temperature w1
          ghi10 ghi90 battery_efficiency current_soc = some r1 ∧
      calculate_remaining_soc speed_kph gradient_deg temperature w2
          ghi10 ghi90 battery_efficiency current_soc = some r2 ∧
      r2 ≤ r1 := by
  refine ⟨_, _, soc_of_pos _ _ _ _ _ _ _ _ hs hbe.ne',
    soc_of_pos _ _ _ _ _ _ _ _ hs hbe.ne', ?_⟩
  unfold remaining_soc_value
  apply clamp_mono
  have hv : 0 < speed_kph * 0.27778 := by nlinarith
  have heff : (0 : ℝ) < interpolate_efficiency speed_kph :=
    lt_of_lt_of_le (by norm_num) (interp_bounds speed_kph).1
  have he97 : (0 : ℝ) < interpolate_efficiency speed_kph * 0.97 :=
    mul_pos heff (by norm_num)
  have ht : (0 : ℝ) < 150000 / (speed_kph * 0.27778) / 3600 :=
    div_pos (div_pos (by norm_num) hv) (by norm_num)
  have hcap : (0 : ℝ) < BATTERY_CAPACITY * battery_efficiency := by
    unfold BATTERY_CAPACITY; exact mul_pos (by norm_num) hbe
  have hsq : (speed_kph * 0.27778 + w1) ^ 2 ≤ (speed_kph * 0.27778 + w2) ^ 2 := by
    have h0 : 0 ≤ speed_kph * 0.27778 + w1 := by linarith
    have h1 : speed_kph * 0.27778 + w1 ≤ speed_kph * 0.27778 + w2 := by linarith
    exact pow_le_pow_left₀ h0 h1 2
  have hF : calculate_rolling_resistance_coeff temperature *
        GRAVITATIONAL_CONSTANT * MASS +
        MASS * GRAVITATIONAL_CONSTANT *
          Real.sin (gradient_deg * (Real.pi / 180)) +
        0.5 * COEFF_DRAG * FRONTAL_AREA * DENSITY_AIR *
          (speed_kph * 0.27778 + w1) ^ 2 ≤
      calculate_rolling_resistance_coeff temperature *
        GRAVITATIONAL_CONSTANT * MASS +
        MASS * GRAVITATIONAL_CONSTANT *
          Real.sin (gradient_deg * (Real.pi / 180)) +
        0.5 * COEFF_DRAG * FRONTAL_AREA * DENSITY_AIR *
          (speed_kph * 0.27778 + w2) ^ 2 := by
    have hd : 0.5 * COEFF_DRAG * FRONTAL_AREA * DENSITY_AIR *
          (speed_kph * 0.27778 + w1) ^ 2 ≤
        0.5 * COEFF_DRAG * FRONTAL_AREA * DENSITY_AIR *
          (speed_kph * 0.27778 + w2) ^ 2 := by
      apply mul_le_mul_of_nonneg_left hsq
      unfold COEFF_DRAG FRONTAL_AREA DENSITY_AIR; norm_num
    linarith
  have hE : speed_kph * 0.27778 *
        (calculate_rolling_resistance_coeff temperature *
          GRAVITATIONAL_CONSTANT * MASS +
          MASS * GRAVITATIONAL_CONSTANT *
            Real.sin (gradient_deg * (Real.pi / 180)) +
          0.5 * COEFF_DRAG * FRONTAL_AREA * DENSITY_AIR *
            (speed_kph * 0.27778 + w1) ^ 2) /
          (interpolate_efficiency speed_kph * 0.97) *
        (150000 / (speed_kph * 0.27778) / 3600) ≤
      speed_kph * 0.27778 *
        (calculate_rolling_resistance_coeff temperature *
          GRAVITATIONAL_CONSTANT * MASS +
          MASS * GRAVITATIONAL_CONSTANT *
            Real.sin (gradient_deg * (Real.pi / 180)) +
          0.5 * COEFF_DRAG * FRONTAL_AREA * DENSITY_AIR *
            (speed_kph * 0.27778 + w2) ^ 2) /
          (interpolate_efficiency speed_kph * 0.97) *
        (150000 / (speed_kph * 0.27778) / 3600) := by
    apply mul_le_mul_of_nonneg_right _ ht.le
    exact (div_le_div_iff_of_pos_right he97).mpr (mul_le_mul_of_nonneg_left hF hv.le)
  apply mul_le_mul_of_nonneg_right _ (by norm_num : (0 : ℝ) ≤ 100)
  apply (div_le_div_iff_of_pos_right hcap).mpr
  linarith [hE]

/-- The clamped SOC expression is linear in the charge fraction with slope
100, so it is monotone in the charge fraction, and strictly monotone
whenever the lower value clamps below 100 and the upper value clamps above
0. -/
lemma clamp_linear_mono (cap E S c1 c2 : ℝ) (hcap : cap ≠ 0) (h12 : c1 < c2) :
    max 0 (min ((c1 * cap - E + S) / cap * 100) 100) ≤
      max 0 (min ((c2 * cap - E + S) / cap * 100) 100) ∧
    (max 0 (min ((c1 * cap - E + S) / cap * 100) 100) < 100 →
      0 < max 0 (min ((c2 * cap - E + S) / cap * 100) 100) →
      max 0 (min ((c1 * cap - E + S) / cap * 100) 100) <
        max 0 (min ((c2 * cap - E + S) / cap * 100) 100)) := by
  have hraw : (c1 * cap - E + S) / cap * 100 < (c2 * cap - E + S) / cap * 100 := by
    have hdiff : (c2 * cap - E + S) / cap * 100 -
        (c1 * cap - E + S) / cap * 100 = (c2 - c1) * 100 := by
      field_simp
      ring
    linarith
  exact ⟨clamp_mono hraw.le, fun h100 h0 => clamp_strict hraw h100 h0⟩

/-- C8 (as stated, refuted): at speed 30 with a 1000 m/s headwind the trip
consumes far more than the full battery, so the result clamps to 0 for both
charge fractions 0 and 1; increasing `current_soc` does not strictly
increase the result. -/
theorem soc_strict_increase_counterexample :
    calculate_remaining_soc 30 0 25 1000 0 0 1 0 = some 0 ∧
      calculate_remaining_soc 30 0 25 1000 0 0 1 1 = some 0 := by
  have hsin : Real.sin ((0 : ℝ) * (Real.pi / 180)) = 0 := by
    rw [zero_mul, Real.sin_zero]
  constructor <;>
  · rw [soc_of_pos _ _ _ _ _ _ _ _ (by norm_num) (by norm_num)]
    refine congrArg some ?_
    unfold remaining_soc_value BATTERY_CAPACITY GRAVITATIONAL_CONSTANT MASS
      FRONTAL_AREA DENSITY_AIR COEFF_DRAG SOLAR_PANEL_EFFICIENCY
      calculate_rolling_resistance_coeff BASE_ROLLING_RESISTANCE
    rw [interp_at_30, hsin, max_eq_left]
    refine le_trans (min_le_left _ _) ?_
    norm_num

/-- C8 (amended): with nonzero battery efficiency, increasing `current_soc`
never decreases the result, and strictly increases it whenever the lower
result is below 100 and the upper result is above 0 (away from the clamp
saturation exhibited by the counterexample). -/
theorem remaining_soc_increasing_in_current_soc (speed_kph gradient_deg
    temperature wind_speed_mps ghi10 ghi90 battery_efficiency c1 c2 : ℝ)
    (hbe : battery_efficiency ≠ 0) (h12 : c1 < c2) :
    ∃ r1 r2 : ℝ,
      calculate_remaining_soc speed_kph gradient_deg temperature
          wind_speed_mps ghi10 ghi90 battery_efficiency c1 = some r1 ∧
      calculate_remaining_soc speed_kph gradient_deg temperature
          wind_speed_mps ghi10 ghi90 battery_efficiency c2 = some r2 ∧
      r1 ≤ r2 ∧ (r1 < 100 → 0 < r2 → r1 < r2) := by
  have hcap : BATTERY_CAPACITY * battery_efficiency ≠ 0 := by
    unfold BATTERY_CAPACITY; exact mul_ne_zero (by norm_num) hbe
  rcases le_or_lt speed_kph 0 with h | h
  · refine ⟨0, 0, soc_of_nonpos _ _ _ _ _ _ _ _ h,
      soc_of_nonpos _ _ _ _ _ _ _ _ h, le_rfl, ?_⟩
    intro h100 h0
    exact absurd h0 (lt_irrefl 0)
  · refine ⟨_, _, soc_of_pos _ _ _ _ _ _ _ _ h hbe,
      soc_of_pos _ _ _ _ _ _ _ _ h hbe, ?_, ?_⟩
    · unfold remaining_soc_value
      exact (clamp_linear_mono _ _ _ c1 c2 hcap h12).1
    · unfold remaining_soc_value
      exact (clamp_linear_mono _ _ _ c1 c2 hcap h12).2

/-- Witness for the amended C8 at concrete inputs. -/
theorem remaining_soc_increasing_in_current_soc_witness :
    (0.9 : ℝ) ≠ 0 ∧ (0.3 : ℝ) < 0.7 ∧
      ∃ r1 r2 : ℝ,
        calculate_remaining_soc 30 0 25 0 0 0 0.9 0.3 = some r1 ∧
        calculate_remaining_soc 30 0 25 0 0 0 0.9 0.7 = some r2 ∧
        r1 ≤ r2 ∧ (r1 < 100 → 0 < r2 → r1 < r2) :=
  ⟨by norm_num, by norm_num,
    remaining_soc_increasing_in_current_soc 30 0 25 0 0 0 0.9 0.3 0.7
      (by norm_num) (by norm_num)⟩

/-- C2: for any bounded scalar minimizer satisfying the documented library
contract (the returned point lies within the bounds, and the reported
objective value is the objective evaluated at the returned point), and any
environment snapshot with nonzero battery efficiency, `find_optimal_speed`
returns a speed in `[10, 60]` together with exactly the remaining SOC of
the Energy Model at that speed. -/
theorem find_optimal_speed_consistent
    (minimize_scalar : (ℝ → ℝ) → ℝ → ℝ → ScalarResult)
    (hcontract : ∀ f : ℝ → ℝ, ∀ a b : ℝ, a ≤ b →
      (a ≤ (minimize_scalar f a b).x ∧ (minimize_scalar f a b).x ≤ b) ∧
        (minimize_scalar f a b).fval = f (minimize_scalar f a b).x)
    (gradient_deg temperature wind_speed_mps ghi10 ghi90 battery_efficiency
      current_soc : ℝ) (hbe : battery_efficiency ≠ 0) :
    10 ≤ (find_optimal_speed minimize_scalar gradient_deg temperature
        wind_speed_mps ghi10 ghi90 battery_efficiency current_soc).1 ∧
    (find_optimal_speed minimize_scalar gradient_deg temperature
        wind_speed_mps ghi10 ghi90 battery_efficiency current_soc).1 ≤ 60 ∧
    calculate_remaining_soc
        (find_optimal_speed minimize_scalar gradient_deg temperature
          wind_speed_mps ghi10 ghi90 battery_efficiency current_soc).1
        gradient_deg temperature wind_speed_mps ghi10 ghi90
        battery_efficiency current_soc =
      some (find_optimal_speed minimize_scalar gradient_deg temperature
        wind_speed_mps ghi10 ghi90 battery_efficiency current_soc).2 := by
  obtain ⟨⟨h10, h60⟩, hfv⟩ := hcontract (fun speed_kph =>
    -((calculate_remaining_soc speed_kph gradient_deg temperature
        wind_speed_mps ghi10 ghi90 battery_efficiency current_soc).getD 0))
    10 60 (by norm_num)
  unfold find_optimal_speed
  dsimp only
  refine ⟨h10, h60, ?_⟩
  obtain ⟨r, hr, -, -⟩ := soc_exists
    ((minimize_scalar (fun speed_kph =>
      -((calculate_remaining_soc speed_kph gradient_deg temperature
          wind_speed_mps ghi10 ghi90 battery_efficiency current_soc).getD 0))
      10 60).x)
    gradient_deg temperature wind_speed_mps ghi10 ghi90 battery_efficiency
    current_soc hbe
  rw [hfv]
  simp only [hr, Option.getD_some, neg_neg]

/-- Witness for C2: the trivial contract-satisfying minimizer that returns
the lower bound, at a concrete environment. -/
theorem find_optimal_speed_consistent_witness :
    (0.9 : ℝ) ≠ 0 ∧
      (10 ≤ (find_optimal_speed (fun f a _b => ⟨a, f a⟩) 0 25 0 0 0 0.9 1).1 ∧
        (find_optimal_speed (fun f a _b => ⟨a, f a⟩) 0 25 0 0 0 0.9 1).1 ≤ 60 ∧
        calculate_remaining_soc
            (find_optimal_speed (fun f a _b => ⟨a, f a⟩) 0 25 0 0 0 0.9 1).1
            0 25 0 0 0 0.9 1 =
          some (find_optimal_speed (fun f a _b => ⟨a, f a⟩) 0 25 0 0 0 0.9 1).2) :=
  ⟨by norm_num,
    find_optimal_speed_consistent (fun f a _b => ⟨a, f a⟩)
      (fun f a _b h => ⟨⟨le_refl a, h⟩, rfl⟩) 0 25 0 0 0 0.9 1 (by norm_num)⟩

/-- Witness for C7 at concrete inputs. -/
theorem remaining_soc_antitone_in_wind_witness :
    (0 : ℝ) < 30 ∧ (0 : ℝ) ≤ 1 ∧ (1 : ℝ) ≤ 4 ∧ (0 : ℝ) < 0.9 ∧
      ∃ r1 r2 : ℝ,
        calculate_remaining_soc 30 0 25 1 0 0 0.9 0.8 = some r1 ∧
        calculate_remaining_soc 30 0 25 4 0 0 0.9 0.8 = some r2 ∧
        r2 ≤ r1 :=
  ⟨by norm_num, by norm_num, by norm_num, by norm_num,
    remaining_soc_antitone_in_wind 30 0 25 1 4 0 0 0.9 0.8 (by norm_num)
      (by norm_num) (by norm_num) (by norm_num)⟩

end MlModel
